import Mathlib

/-
Verification of the pose-estimation strategy layer of apriltag_pose_estimation.

Shallow embedding conventions:
  * Machine floats become ℚ (exact arithmetic; the claims under study are
    order/structure claims, not rounding claims).
  * Python exceptions become an `Except PyError` result; each modelled
    operation that can raise returns `Except`.
  * Python dicts preserve insertion order, so `AprilTagField.tag_positions`
    and the corner cache are insertion-ordered association lists.
  * cv2.solvePnPGeneric (wrapped by core/pnp.py solve_pnp) and
    scipy Rotation.mean are third-party numerical routines; they are
    modelled as oracles carried in an `Env` record.  Per spec §4.2 the
    solver yields a list of candidate poses "not guaranteed sorted".
  * scipy Rotation.magnitude is used by the source only as a minimisation
    key.  For a rotation matrix R the magnitude (rotation angle in [0,π])
    is arccos((trace R - 1)/2), a strictly decreasing function of the
    trace, so the rational key `3 - trace R` induces exactly the same
    comparisons; `magnitudeKey` uses it.
  * Recursion depth is an explicit fuel argument; exhausting it models
    Python's RecursionError.
-/

namespace AprilTagPose

/-- Python exception classes that the modelled code can raise. -/
inductive PyError : Type
  | typeError
  | valueError
  | zeroDivisionError
  | indexError
  | recursionError
  | stopIteration
  | estimationError
deriving DecidableEq

/-- 2D image point (pixel coordinates). -/
abbrev Vec2 : Type := ℚ × ℚ

/-- 3D world point. -/
abbrev Vec3 : Type := ℚ × ℚ × ℚ

/-- 3×3 matrix given by its rows. -/
structure Mat3 : Type where
  r0 : Vec3
  r1 : Vec3
  r2 : Vec3
deriving DecidableEq

def dotV3 (a b : Vec3) : ℚ := a.1 * b.1 + a.2.1 * b.2.1 + a.2.2 * b.2.2

def addV3 (a b : Vec3) : Vec3 := (a.1 + b.1, a.2.1 + b.2.1, a.2.2 + b.2.2)

def scaleV3 (c : ℚ) (a : Vec3) : Vec3 := (c * a.1, c * a.2.1, c * a.2.2)

def matVec (m : Mat3) (v : Vec3) : Vec3 := (dotV3 m.r0 v, dotV3 m.r1 v, dotV3 m.r2 v)

def Mat3.col0 (m : Mat3) : Vec3 := (m.r0.1, m.r1.1, m.r2.1)

def Mat3.col1 (m : Mat3) : Vec3 := (m.r0.2.1, m.r1.2.1, m.r2.2.1)

def Mat3.col2 (m : Mat3) : Vec3 := (m.r0.2.2, m.r1.2.2, m.r2.2.2)

def matMul (m n : Mat3) : Mat3 where
  r0 := (dotV3 m.r0 n.col0, dotV3 m.r0 n.col1, dotV3 m.r0 n.col2)
  r1 := (dotV3 m.r1 n.col0, dotV3 m.r1 n.col1, dotV3 m.r1 n.col2)
  r2 := (dotV3 m.r2 n.col0, dotV3 m.r2 n.col1, dotV3 m.r2 n.col2)

def Mat3.transpose (m : Mat3) : Mat3 where
  r0 := m.col0
  r1 := m.col1
  r2 := m.col2

def Mat3.trace (m : Mat3) : ℚ := m.r0.1 + m.r1.2.1 + m.r2.2.2

def mat3Id : Mat3 where
  r0 := (1, 0, 0)
  r1 := (0, 1, 0)
  r2 := (0, 0, 1)

/-- Modelled from the spec: `core/euclidean.py` is not in the source tree.
Spec §3 "Transform (a.k.a. Pose)": a 3×3 rotation matrix and a 3×1
translation vector, optionally tagged with input/output frame names, an
optional reprojection-error value and an optional ambiguity ratio. -/
structure Pose : Type where
  rotation_matrix : Mat3
  translation_vector : Vec3
  error : Option ℚ := none
  ambiguity : Option ℚ := none
  input_space : Option String := none
  output_space : Option String := none
deriving DecidableEq

/-- Modelled from the spec: `core/euclidean.py` is not in the source tree.
`Pose.with_ambiguity` returns a copy of the pose carrying the given
ambiguity ratio (poses are immutable value objects per spec §3). -/
def Pose.with_ambiguity (p : Pose) (a : ℚ) : Pose := { p with ambiguity := some a }

/-- Modelled from the spec: `core/euclidean.py` is not in the source tree.
Spec §4.1 `transformPoints`: applies the rigid transform to a 3D point,
x ↦ R·x + t. -/
def Pose.transformPoint (p : Pose) (x : Vec3) : Vec3 :=
  addV3 (matVec p.rotation_matrix x) p.translation_vector

/-- Modelled from the spec: `core/detection.py` is not in the source tree.
Spec §3 "AprilTagDetection": tag ID, tag family name, 2D center, 4 ordered
2D corners, decision margin, Hamming count. -/
structure AprilTagDetection : Type where
  tag_id : ℕ
  tag_family : String
  center : Vec2
  corners : List Vec2
  decision_margin : ℚ
  hamming : ℕ
deriving DecidableEq

/-- core/camera.py CameraParameters: fx, fy, cx, cy and five distortion
coefficients. -/
structure CameraParameters : Type where
  fx : ℚ
  fy : ℚ
  cx : ℚ
  cy : ℚ
  k1 : ℚ
  k2 : ℚ
  p1 : ℚ
  p2 : ℚ
  k3 : ℚ
deriving DecidableEq

/-- core/pnp.py PnPMethod. -/
inductive PnPMethod : Type
  | ITERATIVE
  | AP3P
  | IPPE
  | SQPNP
deriving DecidableEq

/-- Python float division: raises ZeroDivisionError on a zero denominator. -/
def pyDiv (a b : ℚ) : Except PyError ℚ :=
  if b = 0 then .error .zeroDivisionError else .ok (a / b)

/-- Loop of CPython min: keep the current best, replace it only on a
strictly smaller key, so the first minimal element wins. -/
def pyMinFold {α β : Type} [LinearOrder β] (key : α → β) : α → List α → α
  | best, [] => best
  | best, x :: xs => pyMinFold key (if key x < key best then x else best) xs

/-- Python min(iterable, key=...): ValueError on an empty iterable,
otherwise the first element attaining the minimal key. -/
def pyMinBy {α β : Type} [LinearOrder β] (key : α → β) : List α → Except PyError α
  | [] => .error .valueError
  | x :: xs => .ok (pyMinFold key x xs)

instance {ε α : Type} [DecidableEq ε] [DecidableEq α] : DecidableEq (Except ε α) := fun a b =>
  match a, b with
  | .error e, .error f =>
      if h : e = f then isTrue (by rw [h]) else isFalse (fun c => by cases c; exact h rfl)
  | .error _, .ok _ => isFalse (fun c => by cases c)
  | .ok _, .error _ => isFalse (fun c => by cases c)
  | .ok x, .ok y =>
      if h : x = y then isTrue (by rw [h]) else isFalse (fun c => by cases c; exact h rfl)

/-- core/field.py AprilTagField.  `tag_positions` is the constructor's
dict, kept as an insertion-ordered association list (Python dicts preserve
insertion order); `corners` is the cache filled by `__calculate_corners`. -/
structure AprilTagField : Type where
  tag_size : ℚ
  tag_positions : List (ℕ × Pose)
  tag_family : String
  input_space : Option String
  output_space : Option String
  corners : List (ℕ × List Vec3)
deriving DecidableEq

/-- core/field.py `__calculate_corners`: the template square
[(-1,+1,0),(+1,+1,0),(+1,-1,0),(-1,-1,0)] / 2 * tag_size. -/
def tagCornerTemplate (tag_size : ℚ) : List Vec3 :=
  [(-(tag_size / 2), tag_size / 2, 0),
   (tag_size / 2, tag_size / 2, 0),
   (tag_size / 2, -(tag_size / 2), 0),
   (-(tag_size / 2), -(tag_size / 2), 0)]

/-- core/field.py `__calculate_corners`: each tag's template corners mapped
through that tag's pose, cached per tag ID in dict (insertion) order. -/
def calculateCorners (tag_size : ℚ) (tag_positions : List (ℕ × Pose)) :
    List (ℕ × List Vec3) :=
  tag_positions.map (fun kp => (kp.1, (tagCornerTemplate tag_size).map kp.2.transformPoint))

/-- core/field.py AprilTagField.__init__.  The input/output frame-space
fields evaluate `next(iter(tag_positions.values()))` whenever every pose
has the corresponding space set — on an empty dict `all(...)` is vacuously
true and `next` raises StopIteration.  The `__debug__` block then rejects
mismatched spaces with ValueError. -/
def AprilTagField.init (tag_size : ℚ) (tag_positions : List (ℕ × Pose))
    (tag_family : String) : Except PyError AprilTagField :=
  match (if tag_positions.all (fun kp => kp.2.input_space.isSome) then
           match tag_positions with
           | [] => Except.error PyError.stopIteration
           | kp :: _ => Except.ok kp.2.input_space
         else Except.ok none),
        (if tag_positions.all (fun kp => kp.2.output_space.isSome) then
           match tag_positions with
           | [] => Except.error PyError.stopIteration
           | kp :: _ => Except.ok kp.2.output_space
         else Except.ok none) with
  | .error e, _ => .error e
  | _, .error e => .error e
  | .ok in_space, .ok out_space =>
      if !tag_positions.isEmpty && in_space.isSome
          && tag_positions.any (fun kp => kp.2.input_space != in_space) then
        Except.error PyError.valueError
      else if !tag_positions.isEmpty && out_space.isSome
          && tag_positions.any (fun kp => kp.2.output_space != out_space) then
        Except.error PyError.valueError
      else
        Except.ok
          { tag_size := tag_size
            tag_positions := tag_positions
            tag_family := tag_family
            input_space := in_space
            output_space := out_space
            corners := calculateCorners tag_size tag_positions }

/-- core/field.py AprilTagField.get_corners: with no IDs an empty array;
otherwise `np.vstack` of the cached corner blocks of the tags whose ID is
among the arguments, **in cache (= field construction) order**, not in
argument order. -/
def AprilTagField.get_corners (f : AprilTagField) (tag_ids : List ℕ) : List Vec3 :=
  if tag_ids = [] then []
  else (f.corners.filter (fun tc => tag_ids.contains tc.1)).flatMap (fun tc => tc.2)

/-- Python `tag_id in field` (Mapping key containment). -/
def AprilTagField.containsTag (f : AprilTagField) (i : ℕ) : Bool :=
  f.tag_positions.any (fun kp => kp.1 == i)

/-- Oracle for core/pnp.py solve_pnp, which wraps the external
cv2.solvePnPGeneric: given object points, image points, camera parameters
and a method, the external solver either fails (EstimationError) or yields
a list of candidate poses.  Per spec §4.2 the candidate order is not
guaranteed sorted by error. -/
abbrev Solver : Type :=
  List Vec3 → List Vec2 → CameraParameters → PnPMethod → Except PyError (List Pose)

/-- External dependencies of a strategy run: the PnP solver oracle, the
multitag-special angle producer's current value (the world origin rotation
in the camera frame, read once per estimate call), and the scipy
Rotation.mean weighted-average oracle. -/
structure Env : Type where
  solver : Solver
  angle : Mat3
  rotMean : List Mat3 → List ℚ → Mat3

/-- Minimisation key standing for scipy `Rotation.from_matrix(R).magnitude()`:
for a rotation matrix the angle is arccos((trace R - 1)/2), strictly
decreasing in the trace, so comparing `3 - trace R` compares magnitudes. -/
def magnitudeKey (m : Mat3) : ℚ := 3 - m.trace

/-- The localization strategy classes, as configuration data: the
construction-time fields of LowestAmbiguityEstimationStrategy,
MultiTagPnPEstimationStrategy and MultiTagSpecialEstimationStrategy. -/
inductive Strategy : Type
  | lowestAmbiguity (pnp_method : PnPMethod)
  | multiTagPnP (fallback : Option Strategy) (pnp_method : PnPMethod)
  | multiTagSpecial (fallback : Option Strategy) (pnp_method : PnPMethod)

/-- Python `isinstance(s, MultiTagPnPEstimationStrategy)`. -/
def Strategy.isMultiTagPnP : Strategy → Bool
  | .multiTagPnP _ _ => true
  | _ => false

/-- Python `isinstance(fallback_strategy, MultiTagPnPEstimationStrategy)` on
the optional constructor argument (None is not an instance). -/
def fallbackIsMultiTagPnP : Option Strategy → Bool
  | some s => s.isMultiTagPnP
  | none => false

/-- localization/strategies/multitag_pnp.py MultiTagPnPEstimationStrategy.__init__:
a MultiTagPnP fallback raises TypeError, the IPPE method raises ValueError,
anything else constructs the strategy. -/
def MultiTagPnPEstimationStrategy.init (fallback_strategy : Option Strategy)
    (pnp_method : PnPMethod) : Except PyError Strategy :=
  if fallbackIsMultiTagPnP fallback_strategy then
    .error .typeError
  else if pnp_method = .IPPE then
    .error .valueError
  else
    .ok (.multiTagPnP fallback_strategy pnp_method)

/-- localization/strategies/lowest_ambiguity.py, per-detection candidate:
`poses[0]` if the solver returned exactly one pose, otherwise
`poses[0].with_ambiguity(poses[0].error / poses[1].error)`; an empty solver
result hits `poses[0]` and raises IndexError, a None error raises TypeError
(Python `None / float`), a zero second error raises ZeroDivisionError. -/
def lowestAmbiguityBest : List Pose → Except PyError Pose
  | [] => .error .indexError
  | [p] => .ok p
  | p0 :: p1 :: _ => do
      let r ←
        match p0.error, p1.error with
        | some a, some b => pyDiv a b
        | _, _ => Except.error PyError.typeError
      .ok (p0.with_ambiguity r)

/-- localization/strategies/lowest_ambiguity.py, the loop over detections:
for each detection solve PnP on that tag's corners alone and collect the
per-detection candidate.  solve_pnp failures are not caught here and
propagate. -/
def lowestAmbiguityCandidates (env : Env) (m : PnPMethod) (cam : CameraParameters)
    (field : AprilTagField) : List AprilTagDetection → Except PyError (List Pose)
  | [] => .ok []
  | d :: ds => do
      let poses ← env.solver (field.get_corners [d.tag_id]) d.corners cam m
      let best ← lowestAmbiguityBest poses
      let rest ← lowestAmbiguityCandidates env m cam field ds
      .ok (best :: rest)

/-- The key of the final `min` in LowestAmbiguityEstimationStrategy:
`pose.ambiguity if pose.ambiguity is not None else float('inf')`. -/
def ambKey (p : Pose) : WithTop ℚ :=
  match p.ambiguity with
  | some a => (a : WithTop ℚ)
  | none => ⊤

/-- localization/strategies/lowest_ambiguity.py
LowestAmbiguityEstimationStrategy.estimate_pose. -/
def lowestAmbiguityEstimate (env : Env) (m : PnPMethod)
    (dets : List AprilTagDetection) (field : AprilTagField)
    (cam : CameraParameters) : Except PyError (Option Pose) :=
  if dets = [] then .ok none
  else do
    let cands ← lowestAmbiguityCandidates env m cam field dets
    if cands = [] then .ok none
    else do
      let best ← pyMinBy ambKey cands
      .ok (some best)

/-- localization/strategies/multitag_pnp.py: the stacked 3D object points,
`field.get_corners(*(detection.tag_id for detection in detections))`. -/
def multiTagObjectPoints (field : AprilTagField)
    (dets : List AprilTagDetection) : List Vec3 :=
  field.get_corners (dets.map (fun d => d.tag_id))

/-- localization/strategies/multitag_pnp.py: the stacked 2D image points,
`np.vstack([detection.corners for detection in detections])`. -/
def multiTagImagePoints (dets : List AprilTagDetection) : List Vec2 :=
  dets.flatMap (fun d => d.corners)

/-- localization/strategies/multitag_special.py, the loop over detections:
solve PnP per tag (EstimationError skips the tag), then keep the candidate
minimising `Rotation.from_matrix(pose.rotation_matrix @ actual_rotation_matrix)
.magnitude()`; Python min raises ValueError on an empty candidate list. -/
def specialSelected (env : Env) (m : PnPMethod) (cam : CameraParameters)
    (field : AprilTagField) : List AprilTagDetection → Except PyError (List Pose)
  | [] => .ok []
  | d :: ds =>
      match env.solver (field.get_corners [d.tag_id]) d.corners cam m with
      | .error .estimationError => specialSelected env m cam field ds
      | .error e => .error e
      | .ok cands => do
          let sel ← pyMinBy
            (fun pose => magnitudeKey (matMul pose.rotation_matrix env.angle)) cands
          let rest ← specialSelected env m cam field ds
          .ok (sel :: rest)

/-- localization/strategies/multitag_special.py, the tail of estimate_pose:
`weights = [1 / pose.error ...]` (ZeroDivisionError on a zero error,
TypeError on a None error), `np.average(translations, weights=weights)`
(ZeroDivisionError when the weights sum to zero), and the scipy weighted
rotation mean (oracle). -/
def specialAverage (env : Env) (poses : List Pose) : Except PyError Pose := do
  let weights ← poses.mapM (fun p =>
    match p.error with
    | some e => pyDiv 1 e
    | none => Except.error PyError.typeError)
  let wsum := weights.sum
  if wsum = 0 then Except.error PyError.zeroDivisionError
  else
    Except.ok
      { rotation_matrix := env.rotMean (poses.map (fun p => p.rotation_matrix)) weights
        translation_vector :=
          scaleV3 (1 / wsum)
            ((List.zipWith scaleV3 weights
              (poses.map (fun p => p.translation_vector))).foldr addV3 (0, 0, 0)) }

/-- The estimate_pose dispatcher over the three strategy classes, with an
explicit recursion-depth budget (Python raises RecursionError when the
interpreter stack is exhausted).

multiTagPnP branch (multitag_pnp.py): empty input returns None; a single
detection, a solver EstimationError, or an empty candidate list go to
`__use_fallback_strategy`, which returns None when no fallback is
configured and otherwise calls **self.estimate_pose** (the source calls
itself, not the fallback); otherwise the result is `poses[0]`.

multiTagSpecial branch (multitag_special.py): empty input returns None; a
single detection or an all-tags solve failure goes to its
`__use_fallback_strategy`, which correctly calls
`self.__fallback_strategy.estimate_pose`; otherwise the per-tag selected
poses are error-inverse-weight averaged. -/
def Strategy.run (env : Env) :
    ℕ → Strategy → List AprilTagDetection → AprilTagField → CameraParameters →
    Except PyError (Option Pose)
  | 0, _, _, _, _ => .error .recursionError
  | _ + 1, .lowestAmbiguity m, dets, field, cam =>
      lowestAmbiguityEstimate env m dets field cam
  | fuel + 1, .multiTagPnP fb m, dets, field, cam =>
      if dets = [] then .ok none
      else if dets.length = 1 then
        match fb with
        | none => .ok none
        | some _ => Strategy.run env fuel (.multiTagPnP fb m) dets field cam
      else
        match env.solver (multiTagObjectPoints field dets) (multiTagImagePoints dets) cam m with
        | .error .estimationError =>
            (match fb with
             | none => .ok none
             | some _ => Strategy.run env fuel (.multiTagPnP fb m) dets field cam)
        | .error e => .error e
        | .ok [] =>
            (match fb with
             | none => .ok none
             | some _ => Strategy.run env fuel (.multiTagPnP fb m) dets field cam)
        | .ok (p :: _) => .ok (some p)
  | fuel + 1, .multiTagSpecial fb m, dets, field, cam =>
      if dets = [] then .ok none
      else if dets.length = 1 then
        match fb with
        | none => .ok none
        | some s => Strategy.run env fuel s dets field cam
      else do
        let selected ← specialSelected env m cam field dets
        if selected = [] then
          match fb with
          | none => .ok none
          | some s => Strategy.run env fuel s dets field cam
        else do
          let p ← specialAverage env selected
          .ok (some p)

/-- localization/localizer.py CameraLocalizer.estimate_pose, the detection
filter: keep a raw detector output only when
`detection.tag_id in self.__field and detection.tag_family == self.__field.tag_family`. -/
def CameraLocalizer.filterDetections (field : AprilTagField)
    (raw : List AprilTagDetection) : List AprilTagDetection :=
  raw.filter (fun d => field.containsTag d.tag_id && d.tag_family == field.tag_family)

/-- localization/localizer.py CameraLocalizer.Result. -/
structure LocalizerResult : Type where
  estimated_pose : Option Pose
  detections : List AprilTagDetection

/-- localization/localizer.py CameraLocalizer.estimate_pose: filter the raw
detector output, hand exactly the filtered list to the configured strategy,
and return the strategy's pose together with the filtered list. -/
def CameraLocalizer.estimate_pose (env : Env) (fuel : ℕ) (strategy : Strategy)
    (field : AprilTagField) (cam : CameraParameters)
    (raw : List AprilTagDetection) : Except PyError LocalizerResult :=
  let dets := CameraLocalizer.filterDetections field raw
  Except.map (fun p => ⟨p, dets⟩) (Strategy.run env fuel strategy dets field cam)

/-! Concrete fixtures used by the claim theorems, their witnesses and the
counterexamples: a two-tag field (tag 1 at the world origin, tag 2 moved
10 units along x, tag size 2, both poses frame-untagged), synthetic
detections, and solver oracles returning fixed candidate lists. -/

def fam36 : String := "tag36h11"

def poseFieldTag1 : Pose where
  rotation_matrix := mat3Id
  translation_vector := (0, 0, 0)

def poseFieldTag2 : Pose where
  rotation_matrix := mat3Id
  translation_vector := (10, 0, 0)

def exPositions : List (ℕ × Pose) := [(1, poseFieldTag1), (2, poseFieldTag2)]

def exField : AprilTagField where
  tag_size := 2
  tag_positions := exPositions
  tag_family := fam36
  input_space := none
  output_space := none
  corners := calculateCorners 2 exPositions

def camP : CameraParameters where
  fx := 1329
  fy := 1326
  cx := 945
  cy := 521
  k1 := 0
  k2 := 0
  p1 := 0
  p2 := 0
  k3 := 0

def detTag1 : AprilTagDetection where
  tag_id := 1
  tag_family := fam36
  center := (5, 5)
  corners := [(0, 0), (10, 0), (10, 10), (0, 10)]
  decision_margin := 60
  hamming := 0

def detTag2 : AprilTagDetection where
  tag_id := 2
  tag_family := fam36
  center := (105, 5)
  corners := [(100, 0), (110, 0), (110, 10), (100, 10)]
  decision_margin := 60
  hamming := 0

def detStray : AprilTagDetection where
  tag_id := 99
  tag_family := fam36
  center := (205, 5)
  corners := [(200, 0), (210, 0), (210, 10), (200, 10)]
  decision_margin := 60
  hamming := 0

/-- A solver oracle that returns the same candidate list for every query. -/
def constSolver (ps : List Pose) : Solver := fun _ _ _ _ => .ok ps

/-- An environment whose solver always raises EstimationError. -/
def envErr : Env where
  solver := fun _ _ _ _ => .error .estimationError
  angle := mat3Id
  rotMean := fun _ _ => mat3Id

/-- An environment whose solver always succeeds with zero candidates. -/
def envEmpty : Env where
  solver := fun _ _ _ _ => .ok []
  angle := mat3Id
  rotMean := fun _ _ => mat3Id

/-- An environment whose solver always yields `ps`, whose angle producer
reads `a`, and whose rotation-mean oracle is the constant identity. -/
def envOf (ps : List Pose) (a : Mat3) : Env where
  solver := constSolver ps
  angle := a
  rotMean := fun _ _ => mat3Id

/-- Rotation by 90° about the z axis (an exact rational rotation matrix). -/
def rz90 : Mat3 where
  r0 := (0, -1, 0)
  r1 := (1, 0, 0)
  r2 := (0, 0, 1)

/-- A pose with a given reprojection error and identity rotation. -/
def mkErrPose (e : ℚ) : Pose where
  rotation_matrix := mat3Id
  translation_vector := (0, 0, 0)
  error := some e

/-- The sentinel pose a stub fallback solver hands back (C1). -/
def sentinelPose : Pose where
  rotation_matrix := mat3Id
  translation_vector := (42, 0, 0)
  error := some 1

/-- A solver candidate with reprojection error 2 (listed first by the
oracle although it is not the lowest-error candidate). -/
def poseA2 : Pose where
  rotation_matrix := mat3Id
  translation_vector := (1, 0, 0)
  error := some 2

/-- A solver candidate with reprojection error 5 (listed first by the
oracle although it is not the lowest-error candidate). -/
def poseA5 : Pose where
  rotation_matrix := mat3Id
  translation_vector := (1, 0, 0)
  error := some 5

/-- A solver candidate with reprojection error 1 (the lowest-error
candidate, listed second by the oracle). -/
def poseB1 : Pose where
  rotation_matrix := mat3Id
  translation_vector := (2, 0, 0)
  error := some 1

/-- A candidate whose rotation is the identity. -/
def poseIdRot : Pose where
  rotation_matrix := mat3Id
  translation_vector := (0, 0, 0)
  error := some 1

/-- A candidate whose rotation equals `rz90`. -/
def poseRz90 : Pose where
  rotation_matrix := rz90
  translation_vector := (0, 0, 0)
  error := some 1

/-- The quantity claim C6 speaks about, written from the spec's words: the
magnitude key of the rotation difference between a candidate's rotation and
the supplied world-orientation-in-camera rotation, i.e. of
candidate · supplied⁻¹ (the inverse of a rotation matrix is its
transpose).  The source instead keys on `candidate · supplied` with no
inverse. -/
def rotationDifferenceKey (p : Pose) (actual : Mat3) : ℚ :=
  magnitudeKey (matMul p.rotation_matrix actual.transpose)

attribute [simp] dotV3 addV3 scaleV3 matVec Mat3.col0 Mat3.col1 Mat3.col2
  matMul Mat3.transpose Mat3.trace mat3Id magnitudeKey pyDiv
  tagCornerTemplate calculateCorners Pose.transformPoint Pose.with_ambiguity
  AprilTagField.get_corners AprilTagField.containsTag
  CameraLocalizer.filterDetections multiTagObjectPoints multiTagImagePoints
  ambKey fam36 poseFieldTag1 poseFieldTag2 exPositions exField camP detTag1
  detTag2 detStray constSolver envOf rz90 mkErrPose sentinelPose

example : exField.get_corners [1] =
    [(-1, 1, 0), (1, 1, 0), (1, -1, 0), (-1, -1, 0)] := by norm_num

example : exField.get_corners [2] =
    [(9, 1, 0), (11, 1, 0), (11, -1, 0), (9, -1, 0)] := by norm_num

example : exField.get_corners [2, 1] = exField.get_corners [1, 2] := by
  norm_num [List.cons_ne_nil]

/-- C8: each of the three pose-estimation strategies (Lowest-Ambiguity,
Multi-Tag PnP, Multi-Tag Special), given an empty detection sequence,
returns None and raises no exception, for every field, camera parameters
and external environment (any positive recursion budget). -/
theorem empty_detections_return_none (env : Env) (s : Strategy)
    (field : AprilTagField) (cam : CameraParameters) (fuel : ℕ) :
    Strategy.run env (fuel + 1) s [] field cam = .ok none := by
  cases s <;> rfl

/-- C7: constructing a Multi-Tag PnP strategy with a Multi-Tag PnP fallback
raises TypeError, constructing it with the planar-only IPPE method raises
ValueError (both at construction, before any estimate call), and a
construction with a non-Multi-Tag-PnP fallback and a non-IPPE method
raises nothing and yields the configured strategy. -/
theorem multitag_pnp_construction_guards :
    (∀ fb m, fallbackIsMultiTagPnP fb = true →
        MultiTagPnPEstimationStrategy.init fb m = .error .typeError)
  ∧ (∀ fb, fallbackIsMultiTagPnP fb = false →
        MultiTagPnPEstimationStrategy.init fb .IPPE = .error .valueError)
  ∧ (∀ fb m, fallbackIsMultiTagPnP fb = false → m ≠ PnPMethod.IPPE →
        MultiTagPnPEstimationStrategy.init fb m = .ok (.multiTagPnP fb m)) := by
  refine ⟨?_, ?_, ?_⟩
  · intro fb m h
    simp [MultiTagPnPEstimationStrategy.init, h]
  · intro fb h
    simp [MultiTagPnPEstimationStrategy.init, h]
  · intro fb m h1 h2
    simp [MultiTagPnPEstimationStrategy.init, h1, h2]

theorem multitag_pnp_construction_guards_witness :
    MultiTagPnPEstimationStrategy.init (some (.multiTagPnP none .SQPNP)) .SQPNP
      = .error .typeError
  ∧ MultiTagPnPEstimationStrategy.init none .IPPE = .error .valueError
  ∧ MultiTagPnPEstimationStrategy.init (some (.lowestAmbiguity .SQPNP)) .SQPNP
      = .ok (.multiTagPnP (some (.lowestAmbiguity .SQPNP)) .SQPNP) :=
  ⟨multitag_pnp_construction_guards.1 _ _ rfl,
   multitag_pnp_construction_guards.2.1 none rfl,
   multitag_pnp_construction_guards.2.2 _ _ rfl (by decide)⟩

/-- C10: constructing an AprilTagField from an empty tag-position mapping
raises StopIteration (from `next` on the empty values iterator) rather than
producing an empty field, and every successfully constructed field holds at
least one tag (its stored positions are exactly, and non-vacuously, the
constructor argument). -/
theorem field_init_nonempty :
    (∀ ts fam, AprilTagField.init ts [] fam = .error .stopIteration)
  ∧ (∀ ts ps fam f, AprilTagField.init ts ps fam = .ok f →
      ps ≠ [] ∧ f.tag_positions = ps) := by
  constructor
  · intro ts fam; rfl
  · intro ts ps fam f h
    cases ps with
    | nil => exact Except.noConfusion h
    | cons kp tl =>
      refine ⟨List.cons_ne_nil _ _, ?_⟩
      rw [AprilTagField.init] at h
      split at h
      · exact Except.noConfusion h
      · exact Except.noConfusion h
      · split at h
        · exact Except.noConfusion h
        · split at h
          · exact Except.noConfusion h
          · cases h; rfl

theorem field_init_nonempty_witness :
    exField.tag_positions = exPositions :=
  (field_init_nonempty.2 2 exPositions fam36 exField rfl).2

/-- The CPython min loop keeps an element of the input whose key is minimal. -/
theorem pyMinFold_le {α β : Type} [LinearOrder β] (key : α → β) :
    ∀ (xs : List α) (b : α),
      (pyMinFold key b xs = b ∨ pyMinFold key b xs ∈ xs)
      ∧ key (pyMinFold key b xs) ≤ key b
      ∧ ∀ y ∈ xs, key (pyMinFold key b xs) ≤ key y := by
  intro xs
  induction xs with
  | nil => intro b; exact ⟨Or.inl rfl, le_refl _, by simp⟩
  | cons x t ih =>
      intro b
      by_cases hx : key x < key b
      · have h := ih x
        simp only [pyMinFold, if_pos hx]
        refine ⟨?_, ?_, ?_⟩
        · rcases h.1 with h1 | h1
          · exact Or.inr (by rw [h1]; exact List.mem_cons_self _ _)
          · exact Or.inr (List.mem_cons_of_mem _ h1)
        · exact le_trans h.2.1 (le_of_lt hx)
        · intro y hy
          rcases List.mem_cons.mp hy with rfl | hy
          · exact h.2.1
          · exact h.2.2 y hy
      · have h := ih b
        simp only [pyMinFold, if_neg hx]
        refine ⟨?_, h.2.1, ?_⟩
        · rcases h.1 with h1 | h1
          · exact Or.inl h1
          · exact Or.inr (List.mem_cons_of_mem _ h1)
        intro y hy
        rcases List.mem_cons.mp hy with rfl | hy
        · exact le_trans h.2.1 (not_lt.mp hx)
        · exact h.2.2 y hy

/-- Python min with a key returns a member of the list attaining the
minimal key (the first such member). -/
theorem pyMinBy_spec {α β : Type} [LinearOrder β] (key : α → β) (xs : List α) (x : α)
    (h : pyMinBy key xs = .ok x) : x ∈ xs ∧ ∀ y ∈ xs, key x ≤ key y := by
  cases xs with
  | nil => exact Except.noConfusion h
  | cons a t =>
      have hx : pyMinFold key a t = x := by
        have h2 := h
        simp only [pyMinBy, Except.ok.injEq] at h2
        exact h2
      subst hx
      have h2 := pyMinFold_le key t a
      refine ⟨?_, ?_⟩
      · rcases h2.1 with h1 | h1
        · rw [h1]; exact List.mem_cons_self _ _
        · exact List.mem_cons_of_mem _ h1
      · intro y hy
        rcases List.mem_cons.mp hy with rfl | hy
        · exact h2.2.1
        · exact h2.2.2 y hy

/-- C1: `__use_fallback_strategy` in multitag_pnp.py calls
`self.estimate_pose` instead of `self.__fallback_strategy.estimate_pose`,
so with a configured fallback a single detection recurses forever and runs
out of stack (RecursionError) for every recursion budget, while the
configured fallback itself would have returned the sentinel pose on the
same inputs. -/
theorem multitag_pnp_fallback_diverges : ∀ fuel : ℕ,
    Strategy.run (envOf [sentinelPose] mat3Id) fuel
        (.multiTagPnP (some (.lowestAmbiguity .SQPNP)) .SQPNP) [detTag1] exField camP
      = .error .recursionError
  ∧ Strategy.run (envOf [sentinelPose] mat3Id) (fuel + 1)
        (.lowestAmbiguity .SQPNP) [detTag1] exField camP
      = .ok (some sentinelPose)
  ∧ Strategy.run envErr fuel
        (.multiTagPnP (some (.lowestAmbiguity .SQPNP)) .SQPNP) [detTag1, detTag2]
        exField camP
      = .error .recursionError
  ∧ Strategy.run envEmpty fuel
        (.multiTagPnP (some (.lowestAmbiguity .SQPNP)) .SQPNP) [detTag1, detTag2]
        exField camP
      = .error .recursionError := by
  intro fuel
  refine ⟨?_, rfl, ?_, ?_⟩
  · induction fuel with
    | zero => rfl
    | succ n ih => exact ih
  · induction fuel with
    | zero => rfl
    | succ n ih => exact ih
  · induction fuel with
    | zero => rfl
    | succ n ih => exact ih

/-- C5 counterexample: with two detections and a solver returning its
candidates unsorted ([error 5, error 1]), the Multi-Tag PnP strategy
returns the first candidate (error 5), not the lowest-error candidate
(error 1). -/
theorem multitag_pnp_first_candidate_counterexample :
    Strategy.run (envOf [poseA5, poseB1] mat3Id) 9
        (.multiTagPnP none .SQPNP) [detTag1, detTag2] exField camP = .ok (some poseA5)
  ∧ (envOf [poseA5, poseB1] mat3Id).solver
        (multiTagObjectPoints exField [detTag1, detTag2])
        (multiTagImagePoints [detTag1, detTag2]) camP .SQPNP = .ok [poseA5, poseB1]
  ∧ poseA5.error = some 5 ∧ poseB1.error = some 1 ∧ poseA5 ≠ poseB1 := by
  refine ⟨rfl, rfl, rfl, rfl, ?_⟩
  intro h
  have h5 : (5 : ℚ) = 1 := by
    have := congrArg Pose.error h
    simp only [poseA5, poseB1, Option.some.injEq] at this
    exact this
  norm_num at h5

/-- C5 amended: for at least two detections, when the combined solve
succeeds with a non-empty candidate list the Multi-Tag PnP strategy returns
the solver's first candidate `poses[0]` (no explicit minimum selection is
performed, so this is the lowest-error candidate only when the solver
already returned its list sorted ascending by error). -/
theorem multitag_pnp_returns_first_candidate (env : Env) (fuel : ℕ)
    (fb : Option Strategy) (m : PnPMethod) (dets : List AprilTagDetection)
    (field : AprilTagField) (cam : CameraParameters) (p : Pose) (rest : List Pose)
    (hlen : 2 ≤ dets.length)
    (hsol : env.solver (multiTagObjectPoints field dets) (multiTagImagePoints dets) cam m
        = .ok (p :: rest)) :
    Strategy.run env (fuel + 1) (.multiTagPnP fb m) dets field cam = .ok (some p) := by
  have hne : dets ≠ [] := by
    intro h
    rw [h] at hlen
    simp at hlen
  have h1 : ¬ dets.length = 1 := by omega
  simp only [Strategy.run, if_neg hne, if_neg h1, hsol]

theorem multitag_pnp_returns_first_candidate_witness :
    Strategy.run (envOf [poseA5, poseB1] mat3Id) 1
        (.multiTagPnP none .SQPNP) [detTag1, detTag2] exField camP = .ok (some poseA5) :=
  multitag_pnp_returns_first_candidate (envOf [poseA5, poseB1] mat3Id) 0 none .SQPNP
    [detTag1, detTag2] exField camP poseA5 [poseB1] (by simp) rfl

/-- C4 counterexample: with a solver returning its two candidates unsorted
([error 2, error 1]), the Lowest-Ambiguity strategy attaches the ratio
2/1 of the FIRST candidate's error over the second's to the FIRST (higher
error) candidate and returns it — not the ratio best/secondBest attached to
the lowest-error candidate. -/
theorem lowest_ambiguity_unsorted_counterexample :
    (envOf [poseA2, poseB1] mat3Id).solver (exField.get_corners [detTag1.tag_id])
        detTag1.corners camP .SQPNP = .ok [poseA2, poseB1]
  ∧ poseA2.error = some 2 ∧ poseB1.error = some 1
  ∧ Strategy.run (envOf [poseA2, poseB1] mat3Id) 9 (.lowestAmbiguity .SQPNP)
        [detTag1] exField camP = .ok (some (poseA2.with_ambiguity (2 / 1)))
  ∧ Strategy.run (envOf [poseA2, poseB1] mat3Id) 9 (.lowestAmbiguity .SQPNP)
        [detTag1] exField camP ≠ .ok (some (poseB1.with_ambiguity (1 / 2))) := by
  refine ⟨rfl, rfl, rfl, rfl, ?_⟩
  intro h
  have h2 := congrArg (fun r => r.map (fun o => o.map (fun p : Pose => p.ambiguity))) h
  simp only [Except.map, Option.map, Pose.with_ambiguity] at h2
  have h3 : ((2 : ℚ) / 1) = 1 / 2 := by
    have h4 := h2
    injection h4 with h5
    injection h5 with h6
    injection h6
  norm_num at h3

/-- C4 amended: the Lowest-Ambiguity strategy solves PnP per tag; a
single-candidate solve is accepted unchanged (no ambiguity), a
multi-candidate solve attaches the ratio first.error/second.error of the
solver's returned order to the solver's FIRST candidate (the lowest-error
candidate only when the solver returns its list sorted ascending); across
tags the candidate with minimal ambiguity is returned, an absent ambiguity
being treated as infinitely ambiguous (deprioritized). -/
theorem lowest_ambiguity_first_candidate_selection :
    (∀ p, lowestAmbiguityBest [p] = .ok p)
  ∧ (∀ p0 p1 rest a0 a1, p0.error = some a0 → p1.error = some a1 → a1 ≠ 0 →
        lowestAmbiguityBest (p0 :: p1 :: rest) = .ok (p0.with_ambiguity (a0 / a1)))
  ∧ (∀ p, p.ambiguity = none → ambKey p = ⊤)
  ∧ (∀ cands best, pyMinBy ambKey cands = .ok best →
        best ∈ cands ∧ ∀ q ∈ cands, ambKey best ≤ ambKey q)
  ∧ (∀ env m cam field dets cands fuel, dets ≠ [] → cands ≠ [] →
        lowestAmbiguityCandidates env m cam field dets = .ok cands →
        Strategy.run env (fuel + 1) (.lowestAmbiguity m) dets field cam
          = Except.map some (pyMinBy ambKey cands)) := by
  refine ⟨?_, ?_, ?_, ?_, ?_⟩
  · intro p; rfl
  · intro p0 p1 rest a0 a1 he0 he1 ha1
    simp only [lowestAmbiguityBest, he0, he1, pyDiv, if_neg ha1]
    rfl
  · intro p hp
    simp [ambKey, hp]
  · intro cands best h
    exact pyMinBy_spec ambKey cands best h
  · intro env m cam field dets cands fuel hdets hcands hc
    cases cands with
    | nil => exact absurd rfl hcands
    | cons a t =>
        show lowestAmbiguityEstimate env m dets field cam = _
        rw [lowestAmbiguityEstimate, if_neg hdets, hc]
        rfl

theorem lowest_ambiguity_first_candidate_selection_witness :
    lowestAmbiguityBest [poseB1] = .ok poseB1
  ∧ lowestAmbiguityBest [poseA2, poseB1] = .ok (poseA2.with_ambiguity (2 / 1))
  ∧ ambKey sentinelPose = ⊤
  ∧ (poseB1 ∈ [poseB1] ∧ ambKey poseB1 ≤ ambKey poseB1)
  ∧ Strategy.run (envOf [poseB1] mat3Id) 1 (.lowestAmbiguity .SQPNP) [detTag1] exField camP
      = Except.map some (pyMinBy ambKey [poseB1]) :=
  ⟨lowest_ambiguity_first_candidate_selection.1 poseB1,
   lowest_ambiguity_first_candidate_selection.2.1 poseA2 poseB1 [] 2 1 rfl rfl (by norm_num),
   lowest_ambiguity_first_candidate_selection.2.2.1 sentinelPose rfl,
   ⟨(lowest_ambiguity_first_candidate_selection.2.2.2.1 [poseB1] poseB1 rfl).1,
    (lowest_ambiguity_first_candidate_selection.2.2.2.1 [poseB1] poseB1 rfl).2 poseB1
      (List.mem_singleton.mpr rfl)⟩,
   lowest_ambiguity_first_candidate_selection.2.2.2.2 (envOf [poseB1] mat3Id) .SQPNP camP
     exField [detTag1] [poseB1] 0 (by simp) (by simp) rfl⟩

/-- C3 counterexample: with every candidate's reprojection error zero (a
zero-error candidate and all candidates tied), the Lowest-Ambiguity
strategy raises ZeroDivisionError from `poses[0].error / poses[1].error`
and the Multi-Tag Special strategy raises ZeroDivisionError from
`1 / pose.error`; there is no tie-break handling. -/
theorem zero_error_raises_zero_division :
    Strategy.run (envOf [mkErrPose 0, mkErrPose 0] mat3Id) 9 (.lowestAmbiguity .IPPE)
        [detTag1] exField camP = .error .zeroDivisionError
  ∧ Strategy.run (envOf [mkErrPose 0] mat3Id) 9 (.multiTagSpecial none .IPPE)
        [detTag1, detTag2] exField camP = .error .zeroDivisionError :=
  ⟨rfl, rfl⟩

/-- C3 amended: candidate errors tied at a nonzero value do not raise — the
Lowest-Ambiguity strategy returns the first candidate with ambiguity
e/e = 1 and the Multi-Tag Special strategy returns an averaged pose — but a
zero error reaching a denominator (the second candidate's error in the
ambiguity ratio, or any selected candidate's error in the inverse-error
weights) raises ZeroDivisionError, as there is no explicit zero/tie
handling in either strategy. -/
theorem tied_nonzero_errors_do_not_raise (e : ℚ) (he : e ≠ 0) :
    Strategy.run (envOf [mkErrPose e, mkErrPose e] mat3Id) 1 (.lowestAmbiguity .IPPE)
        [detTag1] exField camP = .ok (some ((mkErrPose e).with_ambiguity 1))
  ∧ Strategy.run (envOf [mkErrPose e] mat3Id) 1 (.multiTagSpecial none .IPPE)
        [detTag1, detTag2] exField camP
      = .ok (some ⟨mat3Id, (0, 0, 0), none, none, none, none⟩) := by
  constructor
  · have hc : lowestAmbiguityCandidates (envOf [mkErrPose e, mkErrPose e] mat3Id)
        .IPPE camP exField [detTag1] = .ok [(mkErrPose e).with_ambiguity (e / e)] := by
      show (do
        let best ← lowestAmbiguityBest [mkErrPose e, mkErrPose e]
        let rest ← lowestAmbiguityCandidates (envOf [mkErrPose e, mkErrPose e] mat3Id)
          .IPPE camP exField []
        Except.ok (best :: rest)) = _
      rw [show lowestAmbiguityBest [mkErrPose e, mkErrPose e]
            = .ok ((mkErrPose e).with_ambiguity (e / e)) from by
          simp only [lowestAmbiguityBest, mkErrPose, pyDiv, if_neg he]
          rfl]
      rfl
    show lowestAmbiguityEstimate _ _ _ _ _ = _
    rw [lowestAmbiguityEstimate, if_neg (by simp : ¬([detTag1] = [])), hc,
        div_self he]
    rfl
  · have hsel : specialSelected (envOf [mkErrPose e] mat3Id) .IPPE camP exField
        [detTag1, detTag2] = .ok [mkErrPose e, mkErrPose e] := rfl
    have havg : specialAverage (envOf [mkErrPose e] mat3Id) [mkErrPose e, mkErrPose e]
        = .ok ⟨mat3Id, (0, 0, 0), none, none, none, none⟩ := by
      have hw : ([mkErrPose e, mkErrPose e].mapM (fun p =>
          match p.error with
          | some x => pyDiv 1 x
          | none => Except.error PyError.typeError) : Except PyError (List ℚ))
          = .ok [1 / e, 1 / e] := by
        rw [List.mapM_cons, List.mapM_cons, List.mapM_nil]
        simp only [mkErrPose, pyDiv, if_neg he]
        rfl
      have hsum : (1 / e + (1 / e + 0) : ℚ) ≠ 0 := by
        have h1 : (1 : ℚ) / e ≠ 0 := one_div_ne_zero he
        intro hcon
        rw [add_zero, ← two_mul] at hcon
        rcases mul_eq_zero.mp hcon with h2 | h2
        · norm_num at h2
        · exact h1 h2
      rw [specialAverage]
      rw [hw]
      show (if (1 / e + (1 / e + 0) : ℚ) = 0 then Except.error PyError.zeroDivisionError
        else Except.ok _) = _
      rw [if_neg hsum]
      simp [envOf]
    show (do
      let selected ← specialSelected (envOf [mkErrPose e] mat3Id) .IPPE camP exField
        [detTag1, detTag2]
      if selected = [] then Except.ok none
        else do
          let p ← specialAverage (envOf [mkErrPose e] mat3Id) selected
          Except.ok (some p)) = _
    rw [hsel]
    show (do
      let p ← specialAverage (envOf [mkErrPose e] mat3Id) [mkErrPose e, mkErrPose e]
      Except.ok (some p)) = _
    rw [havg]
    rfl

theorem tied_nonzero_errors_do_not_raise_witness :
    Strategy.run (envOf [mkErrPose 1, mkErrPose 1] mat3Id) 1 (.lowestAmbiguity .IPPE)
        [detTag1] exField camP = .ok (some ((mkErrPose 1).with_ambiguity 1))
  ∧ Strategy.run (envOf [mkErrPose 1] mat3Id) 1 (.multiTagSpecial none .IPPE)
        [detTag1, detTag2] exField camP
      = .ok (some ⟨mat3Id, (0, 0, 0), none, none, none, none⟩) :=
  tied_nonzero_errors_do_not_raise 1 (by norm_num)

/-- C2: for the field constructed with tag 1 before tag 2 and detections
ordered [tag 2, tag 1], the stacked object points follow field construction
order (tag 1's corners first) while the stacked image points follow
detection order (tag 2's corners first) — get_corners ignores its argument
order, contradicting its docstring — so row 0 pairs tag 1's world corner
(-1,1,0) with the tag-2 detection's image corner; the world corner of the
tag actually observed in image row 0 is (9,1,0). -/
theorem multitag_pnp_point_stacking_order_mismatch :
    multiTagObjectPoints exField [detTag2, detTag1]
      = exField.get_corners [1] ++ exField.get_corners [2]
  ∧ multiTagImagePoints [detTag2, detTag1] = detTag2.corners ++ detTag1.corners
  ∧ (multiTagObjectPoints exField [detTag2, detTag1]).get? 0
      = some ((-1 : ℚ), (1 : ℚ), (0 : ℚ))
  ∧ (exField.get_corners [2]).get? 0 = some ((9 : ℚ), (1 : ℚ), (0 : ℚ))
  ∧ exField.get_corners [2, 1] = exField.get_corners [1, 2]
  ∧ (-1 : ℚ) < (9 : ℚ) := by
  refine ⟨?_, rfl, ?_, ?_, ?_, by norm_num⟩
  · norm_num [List.cons_ne_nil]
  · norm_num [List.cons_ne_nil]
  · norm_num [List.cons_ne_nil]
  · norm_num [List.cons_ne_nil]

/-- C6: with the supplied world-orientation-in-camera rotation Rz(90°) and
per-tag candidates [identity, Rz(90°)], the source's selection key
`magnitude(candidate · supplied)` (no inverse) picks the identity-rotation
candidate for every tag, although the candidate angularly closest to the
supplied orientation — the one minimising the rotation-difference magnitude
`magnitude(candidate · supplied⁻¹)` — is the Rz(90°) candidate (difference
zero). -/
theorem multitag_special_rotation_key_mismatch :
    specialSelected (envOf [poseIdRot, poseRz90] rz90) .IPPE camP exField
        [detTag1, detTag2] = .ok [poseIdRot, poseIdRot]
  ∧ rotationDifferenceKey poseRz90 rz90 = 0
  ∧ rotationDifferenceKey poseIdRot rz90 = 2
  ∧ magnitudeKey (matMul poseIdRot.rotation_matrix rz90) = 2
  ∧ magnitudeKey (matMul poseRz90.rotation_matrix rz90) = 4 := by
  refine ⟨?_, ?_, ?_, ?_, ?_⟩
  · have hkey : (fun pose : Pose =>
        magnitudeKey (matMul pose.rotation_matrix (envOf [poseIdRot, poseRz90] rz90).angle))
          poseRz90
        < (fun pose : Pose =>
            magnitudeKey (matMul pose.rotation_matrix (envOf [poseIdRot, poseRz90] rz90).angle))
          poseIdRot → False := by
      norm_num [poseIdRot, poseRz90]
    have hsel1 : pyMinBy (fun pose : Pose =>
        magnitudeKey (matMul pose.rotation_matrix (envOf [poseIdRot, poseRz90] rz90).angle))
        [poseIdRot, poseRz90] = .ok poseIdRot := by
      simp only [pyMinBy, pyMinFold, Except.ok.injEq]
      rw [if_neg hkey]
    show (do
      let sel ← pyMinBy (fun pose : Pose =>
        magnitudeKey (matMul pose.rotation_matrix (envOf [poseIdRot, poseRz90] rz90).angle))
        [poseIdRot, poseRz90]
      let rest ← specialSelected (envOf [poseIdRot, poseRz90] rz90) .IPPE camP exField
        [detTag2]
      Except.ok (sel :: rest)) = _
    rw [hsel1]
    show (do
      let sel ← pyMinBy (fun pose : Pose =>
        magnitudeKey (matMul pose.rotation_matrix (envOf [poseIdRot, poseRz90] rz90).angle))
        [poseIdRot, poseRz90]
      let rest ← specialSelected (envOf [poseIdRot, poseRz90] rz90) .IPPE camP exField []
      Except.ok (poseIdRot :: sel :: rest)) = _
    rw [hsel1]
    rfl
  · norm_num [rotationDifferenceKey, poseRz90]
  · norm_num [rotationDifferenceKey, poseIdRot]
  · norm_num [poseIdRot]
  · norm_num [poseRz90]

/-- C9: every detection the camera localizer passes to its configured
strategy survives the localizer's filter, hence has a tag ID present in
the field and the field's tag family; and estimate_pose invokes the
strategy on exactly that filtered detection list, returning the strategy's
pose together with it. -/
theorem localizer_filters_unknown_tags :
    (∀ field raw d, d ∈ CameraLocalizer.filterDetections field raw →
        field.containsTag d.tag_id = true ∧ d.tag_family = field.tag_family)
  ∧ (∀ env fuel s field cam raw,
        CameraLocalizer.estimate_pose env fuel s field cam raw
          = Except.map (fun p => ⟨p, CameraLocalizer.filterDetections field raw⟩)
              (Strategy.run env fuel s (CameraLocalizer.filterDetections field raw)
                field cam)) := by
  constructor
  · intro field raw d hd
    simp only [CameraLocalizer.filterDetections, List.mem_filter, Bool.and_eq_true,
      beq_iff_eq] at hd
    exact ⟨hd.2.1, hd.2.2⟩
  · intro env fuel s field cam raw
    rfl

theorem localizer_filters_unknown_tags_witness :
    (exField.containsTag detTag1.tag_id = true ∧ detTag1.tag_family = exField.tag_family)
  ∧ CameraLocalizer.filterDetections exField [detTag1, detStray] = [detTag1]
  ∧ CameraLocalizer.estimate_pose (envOf [sentinelPose] mat3Id) 1
        (.lowestAmbiguity .SQPNP) exField camP [detTag1, detStray]
      = Except.map
          (fun p => ⟨p, CameraLocalizer.filterDetections exField [detTag1, detStray]⟩)
          (Strategy.run (envOf [sentinelPose] mat3Id) 1 (.lowestAmbiguity .SQPNP)
            (CameraLocalizer.filterDetections exField [detTag1, detStray]) exField camP) :=
  ⟨localizer_filters_unknown_tags.1 exField [detTag1, detStray] detTag1 (by simp),
   rfl,
   localizer_filters_unknown_tags.2 (envOf [sentinelPose] mat3Id) 1
     (.lowestAmbiguity .SQPNP) exField camP [detTag1, detStray]⟩

end AprilTagPose
